import Mathlib

/-!
Shallow embedding of `src/main.py` (Techgini Telegram misinformation bot).

Python strings are `List Char`; `str.strip`, `str.find`, `str.rfind` and
slicing are modelled with Python's semantics (negative indices, clamping).
The two external collaborators — the hosted model (`gen`) and the JSON
library (`loads` / `dumps`) — are parameters; `Except.error` and
`Option.none` model a raised exception.
-/

/-- The characters Python's str.strip removes. -/
def isPySpace (c : Char) : Bool :=
  c = ' ' || c = '\t' || c = '\n' || c = '\r' || c = '\x0b' || c = '\x0c'

/-- Python text.strip(). -/
def pyStrip (s : List Char) : List Char :=
  ((s.dropWhile isPySpace).reverse.dropWhile isPySpace).reverse

/-- Index of the first occurrence of a character, if any. -/
def findAux (c : Char) : List Char → Option Nat
  | [] => none
  | x :: xs => if x = c then some 0 else (findAux c xs).map (· + 1)

/-- Python text.find(c): index of the first occurrence, or -1. -/
def pyFind (s : List Char) (c : Char) : Int :=
  match findAux c s with
  | some i => (i : Int)
  | none => -1

/-- Python text.rfind(c): index of the last occurrence, or -1. -/
def pyRfind (s : List Char) (c : Char) : Int :=
  match findAux c s.reverse with
  | some i => (s.length : Int) - 1 - (i : Int)
  | none => -1

/-- Python slice text[a:b]: negative indices count from the end, then both
bounds are clamped to [0, len]. -/
def pySlice (s : List Char) (a b : Int) : List Char :=
  (s.take (max 0 (min (s.length : Int) (if b < 0 then b + s.length else b))).toNat).drop
    (max 0 (min (s.length : Int) (if a < 0 then a + s.length else a))).toNat

/-- JSON values as Python's json module materialises them (null is Python
None, numbers are exact here). -/
inductive Json where
  | null : Json
  | bool : Bool → Json
  | num : Rat → Json
  | str : List Char → Json
  | arr : List Json → Json
  | obj : List (List Char × Json) → Json

/-- Lookup in a JSON object's field list (Python dict lookup). -/
def jlookup (fields : List (List Char × Json)) (k : List Char) : Option Json :=
  match fields with
  | [] => none
  | (k2, v) :: rest => if k2 = k then some v else jlookup rest k

/-- Python j.get(k) with no default: None (Json.null) for a missing key;
none models the AttributeError raised when j is not a dict. -/
def pyGet : Json → List Char → Option Json
  | .obj fields, k => some ((jlookup fields k).getD .null)
  | _, _ => none

/-- Python j.get(k, d): the default for a missing key; none models the
AttributeError raised when j is not a dict. -/
def pyGetD : Json → List Char → Json → Option Json
  | .obj fields, k, d => some ((jlookup fields k).getD d)
  | _, _, _ => none

def isDigitChar (c : Char) : Bool := '0' ≤ c && c ≤ '9'

/-- The value of a nonempty all-digit string. -/
def digitsVal (l : List Char) : Option Nat :=
  if l = [] then none
  else if l.all isDigitChar then
    some (l.foldl (fun acc c => 10 * acc + (c.toNat - 48)) 0)
  else none

/-- Unsigned part of Python float(str): digits with at most one decimal
point, at least one digit overall. -/
def parseUnsigned (l : List Char) : Option Rat :=
  match l.span (fun c => c ≠ '.') with
  | (a, []) => (digitsVal a).map (fun n => (n : Rat))
  | (a, _ :: b) =>
    if b.any (fun c => c = '.') then none
    else if a = [] ∧ b = [] then none
    else
      match (if a = [] then some 0 else digitsVal a),
            (if b = [] then some 0 else digitsVal b) with
      | some x, some y => some ((x : Rat) + (y : Rat) / ((10 : Rat) ^ b.length))
      | _, _ => none

/-- Python float(str) on the plain decimal forms (optional sign, optional
decimal point, surrounding whitespace); exponent forms, inf and nan are not
produced by the code paths modelled here. -/
def parseFloatStr (s : List Char) : Option Rat :=
  match pyStrip s with
  | '+' :: rest => parseUnsigned rest
  | '-' :: rest => (parseUnsigned rest).map (fun q => -q)
  | t => parseUnsigned t

/-- Python float() applied to a JSON value; none models the exception raised
for values float() cannot convert. -/
def pyFloat : Json → Option Rat
  | .num q => some q
  | .bool b => some (if b then 1 else 0)
  | .str s => parseFloatStr s
  | _ => none

/-- Python equality of a JSON value against a string literal (False rather
than an error for non-strings). -/
def isStrEq : Json → List Char → Bool
  | .str t, s => t == s
  | _, _ => false

def sResult : List Char := "result".toList
def sConfidence : List Char := "confidence".toList
def sReason : List Char := "reason".toList
def sWhyEn : List Char := "why_card_en".toList
def sWhyHi : List Char := "why_card_hi".toList
def sEvidence : List Char := "evidence".toList
def sFAKE : List Char := "FAKE".toList
def sREAL : List Char := "REAL".toList
def sUNSURE : List Char := "UNSURE".toList
def cRED : List Char := "RED".toList
def cGREEN : List Char := "GREEN".toList
def cYELLOW : List Char := "YELLOW".toList
def sParseFailed : List Char := "AI response parse failed".toList
def sFallbackEn : List Char := "Unable to determine".toList
def sFallbackHi : List Char := "Niśchit nahi kar paaye".toList

/-- The fixed fallback verdict call_gemini returns on any parse failure. -/
def fallbackVerdict : Json :=
  .obj [(sResult, .str sUNSURE),
        (sConfidence, .num 40),
        (sReason, .str sParseFailed),
        (sWhyEn, .str sFallbackEn),
        (sWhyHi, .str sFallbackHi),
        (sEvidence, .arr [])]

/-- src/main.py color_from_result: RED / GREEN / YELLOW from the verdict's
result and confidence; none models an exception raised inside it (a
non-dict verdict, or a confidence float() cannot convert). -/
def color_from_result (j : Json) : Option (List Char) :=
  match pyGetD j sResult (.str sUNSURE) with
  | none => none
  | some res =>
    match pyGetD j sConfidence (.num 0) with
    | none => none
    | some confJ =>
      match pyFloat confJ with
      | none => none
      | some conf =>
        some (if isStrEq res sFAKE && decide ((65 : Rat) ≤ conf) then cRED
              else if isStrEq res sREAL && decide ((60 : Rat) ≤ conf) then cGREEN
              else cYELLOW)

/-- content.replace of each double quote by backslash-quote, applied before
the content is spliced into the classification prompt. -/
def escapeQuotes : List Char → List Char
  | [] => []
  | c :: cs => if c = '"' then '\\' :: '"' :: escapeQuotes cs else c :: escapeQuotes cs

def promptPre : List Char :=
  ("You are an AI misinformation detector focused on India.\nAnalyze the following content and respond ONLY in valid JSON with these fields:\n\x7b\n \"result\": \"FAKE\" or \"REAL\" or \"UNSURE\",\n \"confidence\": number_between_0_and_100,\n \"reason\": \"one-sentence technical reason\",\n \"why_card_en\": \"short consumer-friendly explanation in English (1-2 short bullets)\",\n \"why_card_hi\": \"short consumer-friendly explanation in Hindi (1-2 short bullets)\",\n \"evidence\": [\"optional URL or short source text\"]\n\x7d\nContent: \"\"\"").toList

def promptPost : List Char :=
  ("\"\"\"\nContext: country=India, consider scams, phishing, deepfakes, and forged claims.\nReturn only JSON.\n").toList

/-- PROMPT_TEMPLATE.format(content=content.replace ...). -/
def buildPrompt (content : List Char) : List Char :=
  promptPre ++ escapeQuotes content ++ promptPost

/-- The braced substring text[text.find(left) : text.rfind(right)+1]. -/
def extractBraced (text : List Char) : List Char :=
  pySlice text (pyFind text '\x7b') (pyRfind text '\x7d' + 1)

/-- The parse-or-fallback step of call_gemini. json.loads is the external
parameter loads (none models a raised exception); the try/except turns any
failure into the fixed fallback verdict, so this step is total. -/
def parseResponse (loads : List Char → Option Json) (respText : List Char) : Json :=
  match loads (extractBraced (pyStrip respText)) with
  | some j => j
  | none => fallbackVerdict

/-- src/main.py call_gemini: build the prompt, invoke the external model
(gen; Except.error models a raised upstream exception), then parse the
response text defensively. -/
def call_gemini (gen : List Char → Except Unit (List Char))
    (loads : List Char → Option Json) (content : List Char) : Except Unit Json :=
  match gen (buildPrompt content) with
  | .error e => .error e
  | .ok resp => .ok (parseResponse loads resp)

def digitChar (n : Nat) : Char := Char.ofNat (48 + n)

/-- Decimal digits of a natural number; the fuel (any bound above the digit
count, n itself suffices) keeps the recursion structural. -/
def natReprAux : Nat → Nat → List Char
  | 0, _ => []
  | _ + 1, n =>
    if n < 10 then [digitChar n]
    else natReprAux n (n / 10) ++ [digitChar (n % 10)]

def natRepr (n : Nat) : List Char := natReprAux (n + 1) n

def intRepr (i : Int) : List Char :=
  if i < 0 then '-' :: natRepr i.natAbs else natRepr i.natAbs

/-- Display of a JSON number for f-string interpolation. Integers render as
Python prints them; non-integral values render as num/den here (no theorem
depends on the digits of a non-integral confidence). -/
def numRepr (q : Rat) : List Char :=
  if q.den = 1 then intRepr q.num
  else intRepr q.num ++ '/' :: natRepr q.den

def sNone : List Char := "None".toList
def sTrue : List Char := "True".toList
def sFalse : List Char := "False".toList
def sArrRepr : List Char := "[...]".toList
def sObjRepr : List Char := "\x7b...\x7d".toList

/-- Python f-string str() of the JSON scalars the replies interpolate (the
repr of arrays/objects is abbreviated; no theorem depends on it). -/
def jstr : Json → List Char
  | .null => sNone
  | .bool true => sTrue
  | .bool false => sFalse
  | .num q => numRepr q
  | .str s => s
  | .arr _ => sArrRepr
  | .obj _ => sObjRepr

/-- Python string + j: raises TypeError unless j is a str. -/
def asStr : Json → Option (List Char)
  | .str s => some s
  | _ => none

def sDash : List Char := "-".toList

/-- j.get(key, "-") followed by string concatenation: none models a raised
exception (non-dict j, or a non-string card value). -/
def whyCard (j : Json) (key : List Char) : Option (List Char) :=
  match pyGetD j key (.str sDash) with
  | some v => asStr v
  | none => none

def hdrRed : List Char := "🚨 *Likely Misinformation* (Red Flag)\n".toList
def hdrYellow : List Char := "⚠ *Unverified / Low Confidence*\n".toList
def hdrGreen : List Char := "✅ *Likely Safe* (Green)\n".toList
def lblConf : List Char := "\n*Confidence:* ".toList
def lblPct : List Char := "%\n".toList
def lblReason : List Char := "*Reason:* ".toList
def lblNlNl : List Char := "\n\n".toList
def lblWhyEn : List Char := "*Why (EN):* ".toList
def lblWhyHi : List Char := "*Why (HI):* ".toList
def lblNl : List Char := "\n".toList

/-- The reply-construction lines of handle_message (header by color, then
confidence, reason and the two why-cards): none models an exception raised
while building the reply, caught by the outer except. Returns the color
together with the assembled reply text. -/
def buildReply (j : Json) : Option (List Char × List Char) :=
  match color_from_result j with
  | none => none
  | some color =>
    match pyGet j sConfidence, pyGet j sReason, whyCard j sWhyEn, whyCard j sWhyHi with
    | some confJ, some reasonJ, some en, some hi =>
      some (color,
        (if color = cRED then hdrRed
         else if color = cYELLOW then hdrYellow
         else hdrGreen)
          ++ lblConf ++ jstr confJ ++ lblPct
          ++ lblReason ++ jstr reasonJ ++ lblNlNl
          ++ lblWhyEn ++ en ++ lblNl
          ++ lblWhyHi ++ hi ++ lblNl)
    | _, _, _, _ => none

/-- The attempt loop of send_safe_reply over the given attempt numbers:
returns (success, the time.sleep durations in order, attempts made). -/
def sendLoop (send : Nat → Bool) : List Nat → Bool × List Nat × Nat
  | [] => (false, [], 0)
  | a :: rest =>
    if send a then (true, [], 1)
    else
      let tail := sendLoop send rest
      (tail.1, (if a < 2 then [2 ^ a] else []) ++ tail.2.1, tail.2.2 + 1)

/-- src/main.py send_safe_reply: for attempt in range(3), try to deliver
(send, a parameter: the outcome of bot.reply_to at each attempt; exceptions
are caught), sleeping 2 ** attempt between failed attempts (not after the
last); returns (delivered, sleeps, attempts made) and never raises. -/
def send_safe_reply (send : Nat → Bool) : Bool × List Nat × Nat :=
  sendLoop send [0, 1, 2]

/-- bot_user_data: the in-memory per-user session store. Each value is the
"last_complaint" field of the stored dict. -/
abbrev Store := List (Nat × List Char)

/-- Python dict lookup bot_user_data.get(uid). -/
def storeGet (store : Store) (uid : Nat) : Option (List Char) :=
  match store with
  | [] => none
  | (k, v) :: rest => if k = uid then some v else storeGet rest uid

/-- Python dict assignment bot_user_data[uid] = value (last write wins). -/
def storePut (store : Store) (uid : Nat) (v : List Char) : Store :=
  (uid, v) :: store.filter (fun p => p.1 ≠ uid)

def noComplaintMsg : List Char :=
  "No recent red-flagged item found. Forward suspicious text first.".toList
def complaintHeader : List Char := "📝 Auto complaint text:\n\n".toList

/-- src/main.py complaint_cmd: reply with the sender's stored complaint, or
the no-item message. (The stored dict always has the last_complaint key, so
the `if not data` truthiness test is exactly the presence test.) Returns
(messages sent, store after). -/
def complaint_cmd (uid : Nat) (store : Store) : List (List Char) × Store :=
  match storeGet store uid with
  | none => ([noComplaintMsg], store)
  | some c => ([complaintHeader ++ c], store)

def cpPre : List Char :=
  ("\nYou are an assistant preparing a concise complaint for a cyber crime reporting portal (NCRP).\nWrite a short, formal complaint in English (3-6 sentences) describing the incident, containing:\n- what the message/content was (paste below),\n- why it is harmful/misleading (use evidence),\n- request authorities to investigate.\nAlso provide a short evidence list (1-2 bullets).\nContent: \"\"\"").toList

def cpMid : List Char := ("\"\"\"\nAI findings JSON: ").toList

def cpPost : List Char := ("\nReturn only the complaint text.\n").toList

/-- The f-string prompt of generate_complaint_text (json.dumps output is the
dumpedJ argument). -/
def complaintPrompt (content : List Char) (dumpedJ : List Char) : List Char :=
  cpPre ++ content ++ cpMid ++ dumpedJ ++ cpPost

/-- src/main.py generate_complaint_text: second model call, raw text
stripped; json.dumps is the external parameter dumps. -/
def generate_complaint_text (gen : List Char → Except Unit (List Char))
    (dumps : Json → List Char) (content : List Char) (j : Json) :
    Except Unit (List Char) :=
  match gen (complaintPrompt content (dumps j)) with
  | .error e => .error e
  | .ok resp => .ok (pyStrip resp)

def sendMoreMsg : List Char :=
  "Send the suspicious message text (copy paste SMS/forward).".toList
def checkingMsg : List Char := "🔎 Checking... please wait a moment.".toList
def errorReply : List Char :=
  "❌ Sorry, I encountered an error analyzing this content. Please try again.".toList
def hintLine : List Char :=
  "\nYou can /complaint to generate auto complaint text to paste into NCRP.\n".toList
def unavailLine : List Char :=
  "\n⚠️ Complaint generation temporarily unavailable.\n".toList

/-- The try-block of handle_message: classification, reply construction and
(for RED) the inner complaint try with its store write. Except.error models
an exception reaching the outer handler; Except.ok carries the final reply
and the store after the message. -/
def classify_and_reply (gen : List Char → Except Unit (List Char))
    (loads : List Char → Option Json) (dumps : Json → List Char)
    (uid : Nat) (text : List Char) (store : Store) :
    Except Unit (List Char × Store) :=
  match call_gemini gen loads text with
  | .error e => .error e
  | .ok j =>
    match buildReply j with
    | none => .error ()
    | some (color, reply) =>
      if color = cRED then
        match generate_complaint_text gen dumps text j with
        | .ok complaint => .ok (reply ++ hintLine, storePut store uid complaint)
        | .error _ => .ok (reply ++ unavailLine, store)
      else .ok (reply, store)

/-- The messages handed to send_safe_reply, in order, and the session store
after one inbound message. -/
structure MsgEffects where
  sends : List (List Char)
  store : Store

/-- src/main.py handle_message: length gate, acknowledgement, then the
try-block; any exception there degrades to the generic error reply. msgText
is message.text (none when absent: `or ""`). Total: no exception escapes to
the polling loop. -/
def handle_message (gen : List Char → Except Unit (List Char))
    (loads : List Char → Option Json) (dumps : Json → List Char)
    (uid : Nat) (msgText : Option (List Char)) (store : Store) : MsgEffects :=
  let text := msgText.getD []
  if (pyStrip text).length < 5 then
    { sends := [sendMoreMsg], store := store }
  else
    match classify_and_reply gen loads dumps uid text store with
    | .ok (reply, store2) => { sends := [checkingMsg, reply], store := store2 }
    | .error _ => { sends := [checkingMsg, errorReply], store := store }

/-- Helper: on an object whose result field is the string `label` and whose
confidence field is the number `conf`, color_from_result computes the
threshold conditional directly. -/
theorem color_from_result_eval (fields : List (List Char × Json))
    (label : List Char) (conf : Rat)
    (hres : jlookup fields sResult = some (.str label))
    (hconf : jlookup fields sConfidence = some (.num conf)) :
    color_from_result (.obj fields)
      = some (if label == sFAKE && decide ((65 : Rat) ≤ conf) then cRED
              else if label == sREAL && decide ((60 : Rat) ≤ conf) then cGREEN
              else cYELLOW) := by
  simp [color_from_result, pyGetD, hres, hconf, pyFloat, isStrEq]

/-- C1: for every verdict dictionary carrying a string label and a numeric
confidence, the tier function returns RED (HIGH_RISK) iff label = FAKE and
confidence ≥ 65, GREEN (LIKELY_SAFE) iff label = REAL and confidence ≥ 60,
and YELLOW (LOW_CONFIDENCE) in every other case (UNSURE included); both
boundaries are inclusive. -/
theorem color_from_result_tiers (fields : List (List Char × Json))
    (label : List Char) (conf : Rat)
    (hres : jlookup fields sResult = some (.str label))
    (hconf : jlookup fields sConfidence = some (.num conf)) :
    (color_from_result (.obj fields) = some cRED ↔ label = sFAKE ∧ 65 ≤ conf)
    ∧ (color_from_result (.obj fields) = some cGREEN ↔ label = sREAL ∧ 60 ≤ conf)
    ∧ (color_from_result (.obj fields) = some cYELLOW ↔
        ¬(label = sFAKE ∧ 65 ≤ conf) ∧ ¬(label = sREAL ∧ 60 ≤ conf)) := by
  rw [color_from_result_eval fields label conf hres hconf]
  have hFR : sFAKE ≠ sREAL := by decide
  have hRG : cRED ≠ cGREEN := by decide
  have hRY : cRED ≠ cYELLOW := by decide
  have hGY : cGREEN ≠ cYELLOW := by decide
  have hGR : cGREEN ≠ cRED := by decide
  have hYR : cYELLOW ≠ cRED := by decide
  have hYG : cYELLOW ≠ cGREEN := by decide
  by_cases h1 : label = sFAKE <;> by_cases h3 : label = sREAL <;>
    by_cases h2 : (65 : Rat) ≤ conf <;> by_cases h4 : (60 : Rat) ≤ conf <;>
      (simp_all <;> (split <;> simp_all))

/-- Witness for C1 at a concrete dictionary: label FAKE, confidence exactly
65 is RED and nothing else. -/
theorem color_from_result_tiers_witness :
    (color_from_result (.obj [(sResult, .str sFAKE), (sConfidence, .num 65)])
        = some cRED ↔ sFAKE = sFAKE ∧ (65 : Rat) ≤ 65)
    ∧ (color_from_result (.obj [(sResult, .str sFAKE), (sConfidence, .num 65)])
        = some cGREEN ↔ sFAKE = sREAL ∧ (60 : Rat) ≤ 65)
    ∧ (color_from_result (.obj [(sResult, .str sFAKE), (sConfidence, .num 65)])
        = some cYELLOW ↔
          ¬(sFAKE = sFAKE ∧ (65 : Rat) ≤ 65) ∧ ¬(sFAKE = sREAL ∧ (60 : Rat) ≤ 65)) :=
  color_from_result_tiers [(sResult, .str sFAKE), (sConfidence, .num 65)]
    sFAKE 65 (by rfl) (by rfl)

theorem findAux_eq_none {c : Char} : ∀ {l : List Char}, c ∉ l → findAux c l = none
  | [], _ => rfl
  | x :: xs, h => by
    simp only [List.mem_cons, not_or] at h
    simp only [findAux, if_neg (fun hx : x = c => h.1 hx.symm),
      findAux_eq_none h.2, Option.map_none']

theorem findAux_append {c : Char} : ∀ {pre : List Char} (rest : List Char), c ∉ pre →
    findAux c (pre ++ c :: rest) = some pre.length
  | [], rest, _ => by simp [findAux]
  | x :: xs, rest, h => by
    simp only [List.mem_cons, not_or] at h
    simp only [List.cons_append, findAux, if_neg (fun hx : x = c => h.1 hx.symm),
      List.append_eq, findAux_append rest h.2, Option.map_some', List.length_cons]

/-- A Python slice with in-range natural bounds is take-then-drop. -/
theorem pySlice_natural (s : List Char) (a b : Nat) (ha : a ≤ s.length) (hb : b ≤ s.length) :
    pySlice s (a : Int) (b : Int) = (s.take b).drop a := by
  unfold pySlice
  rw [if_neg (by omega : ¬((a : Int) < 0)), if_neg (by omega : ¬((b : Int) < 0))]
  rw [show min (s.length : Int) (a : Int) = (a : Int) by omega,
    show min (s.length : Int) (b : Int) = (b : Int) by omega,
    show max 0 (a : Int) = (a : Int) by omega,
    show max 0 (b : Int) = (b : Int) by omega,
    Int.toNat_ofNat, Int.toNat_ofNat]

/-- When neither brace occurs, the sliced substring is empty. -/
theorem extractBraced_no_brace {t : List Char} (h1 : '\x7b' ∉ t) (h2 : '\x7d' ∉ t) :
    extractBraced t = [] := by
  have hf : pyFind t '\x7b' = -1 := by
    unfold pyFind; rw [findAux_eq_none h1]
  have hr : pyRfind t '\x7d' = -1 := by
    unfold pyRfind; rw [findAux_eq_none (by simpa using h2 : '\x7d' ∉ t.reverse)]
  unfold extractBraced
  rw [hf, hr]
  unfold pySlice
  rw [if_neg (by omega : ¬((-1 : Int) + 1 < 0))]
  rw [show min (t.length : Int) ((-1 : Int) + 1) = 0 by omega,
    show max (0 : Int) 0 = 0 from rfl]
  simp

/-- The slice runs from the first left brace to the last right brace,
ignoring everything around them. -/
theorem extractBraced_split {pre mid post : List Char}
    (hpre : '\x7b' ∉ pre) (hpost : '\x7d' ∉ post) :
    extractBraced (pre ++ '\x7b' :: (mid ++ '\x7d' :: post)) = '\x7b' :: (mid ++ ['\x7d']) := by
  have hrev : (pre ++ '\x7b' :: (mid ++ '\x7d' :: post)).reverse
      = post.reverse ++ '\x7d' :: (mid.reverse ++ '\x7b' :: pre.reverse) := by
    simp [List.reverse_append]
  have hlen : (pre ++ '\x7b' :: (mid ++ '\x7d' :: post)).length
      = pre.length + mid.length + post.length + 2 := by
    simp [List.length_append]
    omega
  have hfind : pyFind (pre ++ '\x7b' :: (mid ++ '\x7d' :: post)) '\x7b' = (pre.length : Int) := by
    unfold pyFind; rw [findAux_append _ hpre]
  have hrfind : pyRfind (pre ++ '\x7b' :: (mid ++ '\x7d' :: post)) '\x7d'
      = (pre.length : Int) + (mid.length : Int) + 1 := by
    unfold pyRfind
    rw [hrev, findAux_append _ (by simpa using hpost), hlen, List.length_reverse]
    push_cast
    ring
  unfold extractBraced
  rw [hfind, hrfind,
    show (pre.length : Int) + (mid.length : Int) + 1 + 1
        = ((pre.length + (mid.length + 2) : Nat) : Int) by push_cast; ring,
    pySlice_natural _ _ _ (by rw [hlen]; omega) (by rw [hlen]; omega),
    List.take_append, List.drop_left]
  rw [List.take_succ_cons, List.take_append 1]
  simp [List.take]

/-- C2: when the parsing step of classify fails — json.loads rejecting the
braced substring (loads = none), in particular the empty extraction when no
brace pair is present — call_gemini returns exactly the fixed fallback
verdict (UNSURE / 40 / "AI response parse failed" / placeholder cards /
empty evidence); and the parse-or-fallback step never raises: whatever
loads does, the call returns .ok. -/
theorem call_gemini_fallback (gen : List Char → Except Unit (List Char))
    (loads : List Char → Option Json) (content resp : List Char)
    (hgen : gen (buildPrompt content) = .ok resp) :
    (loads (extractBraced (pyStrip resp)) = none →
      call_gemini gen loads content = .ok fallbackVerdict)
    ∧ ('\x7b' ∉ pyStrip resp → '\x7d' ∉ pyStrip resp → loads [] = none →
      call_gemini gen loads content = .ok fallbackVerdict)
    ∧ call_gemini gen loads content = .ok (parseResponse loads resp) := by
  refine ⟨fun h => ?_, fun hb1 hb2 hl => ?_, ?_⟩
  · simp only [call_gemini, hgen, parseResponse, h]
  · simp only [call_gemini, hgen, parseResponse, extractBraced_no_brace hb1 hb2, hl]
  · simp only [call_gemini, hgen]

def wLoadsNone : List Char → Option Json := fun _ => none

def wGenC2 : List Char → Except Unit (List Char) := fun _ => .ok ("no braces here".toList)

/-- Witness for C2: a braceless model response yields the fallback verdict. -/
theorem call_gemini_fallback_witness :
    call_gemini wGenC2 wLoadsNone ("some scam text".toList) = .ok fallbackVerdict :=
  (call_gemini_fallback wGenC2 wLoadsNone ("some scam text".toList)
    ("no braces here".toList) rfl).1 rfl

/-- C3: for a response whose stripped text is prose, then a braced substring
(first left brace to last right brace), then prose, classify slices out
exactly that substring, hands it to the JSON parser, and returns the parsed
object; the surrounding prose plays no part. -/
theorem call_gemini_extracts (gen : List Char → Except Unit (List Char))
    (loads : List Char → Option Json) (content resp : List Char)
    (pre mid post : List Char) (j : Json)
    (hgen : gen (buildPrompt content) = .ok resp)
    (hsplit : pyStrip resp = pre ++ '\x7b' :: (mid ++ '\x7d' :: post))
    (hpre : '\x7b' ∉ pre) (hpost : '\x7d' ∉ post)
    (hloads : loads ('\x7b' :: (mid ++ ['\x7d'])) = some j) :
    extractBraced (pyStrip resp) = '\x7b' :: (mid ++ ['\x7d'])
    ∧ call_gemini gen loads content = .ok j := by
  have hx : extractBraced (pyStrip resp) = '\x7b' :: (mid ++ ['\x7d']) := by
    rw [hsplit]
    exact extractBraced_split hpre hpost
  refine ⟨hx, ?_⟩
  simp only [call_gemini, hgen, parseResponse, hx, hloads]

def wPre : List Char := "Sure! ".toList
def wMid : List Char := ("\"k\":1").toList
def wPost : List Char := " thanks".toList
def wRespC3 : List Char := wPre ++ '\x7b' :: (wMid ++ '\x7d' :: wPost)
def wGenC3 : List Char → Except Unit (List Char) := fun _ => .ok wRespC3
def wLoadsC3 : List Char → Option Json := fun _ => some (.num 1)

/-- Witness for C3: JSON embedded in prose is sliced out and parsed. -/
theorem call_gemini_extracts_witness :
    extractBraced (pyStrip wRespC3) = '\x7b' :: (wMid ++ ['\x7d'])
    ∧ call_gemini wGenC3 wLoadsC3 ("hello scam".toList) = .ok (.num 1) :=
  call_gemini_extracts wGenC3 wLoadsC3 ("hello scam".toList) wRespC3
    wPre wMid wPost (.num 1) rfl (by decide) (by decide) (by decide) rfl

/-- C8: the delivery helper makes at most 3 send attempts; it returns true
immediately after the first attempt that succeeds, having slept 2^i after
each failed attempt i before it; after 3 consecutive failures it returns
false with sleeps [1, 2]. It is a total function — no exception reaches the
caller. -/
theorem send_safe_reply_spec (send : Nat → Bool) :
    (send_safe_reply send).2.2 ≤ 3
    ∧ ((send_safe_reply send).1 = true →
        send ((send_safe_reply send).2.2 - 1) = true
        ∧ (∀ i, i < (send_safe_reply send).2.2 - 1 → send i = false)
        ∧ (send_safe_reply send).2.1
            = (List.range ((send_safe_reply send).2.2 - 1)).map (fun i => 2 ^ i))
    ∧ ((send_safe_reply send).1 = false →
        (send_safe_reply send).2.2 = 3
        ∧ send 0 = false ∧ send 1 = false ∧ send 2 = false
        ∧ (send_safe_reply send).2.1 = [1, 2]) := by
  by_cases h0 : send 0 = true <;> by_cases h1 : send 1 = true <;>
    by_cases h2 : send 2 = true <;>
      (simp_all [send_safe_reply, sendLoop, List.range_succ]
       <;> (intro i hi; interval_cases i <;> simp_all))

theorem storeGet_storePut (store : Store) (uid : Nat) (v : List Char) :
    storeGet (storePut store uid v) uid = some v := by
  simp [storeGet, storePut]

theorem storeGet_mem {store : Store} {uid : Nat} {c : List Char}
    (h : storeGet store uid = some c) : (uid, c) ∈ store := by
  induction store with
  | nil => simp [storeGet] at h
  | cons p rest ih =>
    obtain ⟨k, v⟩ := p
    simp only [storeGet] at h
    by_cases hk : k = uid
    · rw [if_pos hk] at h
      obtain rfl : v = c := Option.some.inj h
      subst hk
      exact List.mem_cons_self _ _
    · rw [if_neg hk] at h
      exact List.mem_cons_of_mem _ (ih h)

/-- C9: the retrieval command replies with the no-item message exactly when
the sender has no stored record; with a stored record it replies with that
record verbatim behind the fixed header, and the record it returns is
stored under the sender's own identity — never another user's. -/
theorem complaint_cmd_spec (uid : Nat) (store : Store) :
    (storeGet store uid = none → complaint_cmd uid store = ([noComplaintMsg], store))
    ∧ (∀ c, storeGet store uid = some c →
        complaint_cmd uid store = ([complaintHeader ++ c], store) ∧ (uid, c) ∈ store) := by
  constructor
  · intro h
    simp [complaint_cmd, h]
  · intro c h
    exact ⟨by simp [complaint_cmd, h], storeGet_mem h⟩

def wDumps : Json → List Char := fun _ => []

/-- C5: a message whose trimmed text is shorter than 5 characters stops at
the length gate: the only reply is the send-more prompt, the store is
untouched, and the classifier is never consulted — the outcome is the same
for any gen/loads/dumps. -/
theorem handle_message_length_gate
    (gen gen2 : List Char → Except Unit (List Char))
    (loads loads2 : List Char → Option Json) (dumps dumps2 : Json → List Char)
    (uid : Nat) (msgText : Option (List Char)) (store : Store)
    (h : (pyStrip (msgText.getD [])).length < 5) :
    handle_message gen loads dumps uid msgText store = ⟨[sendMoreMsg], store⟩
    ∧ handle_message gen loads dumps uid msgText store
        = handle_message gen2 loads2 dumps2 uid msgText store := by
  constructor <;> simp [handle_message, h]

/-- Witness for C5 on the two-character message "hi". -/
theorem handle_message_length_gate_witness :
    handle_message wGenC2 wLoadsNone wDumps 7 (some ("hi".toList)) []
        = ⟨[sendMoreMsg], []⟩
    ∧ handle_message wGenC2 wLoadsNone wDumps 7 (some ("hi".toList)) []
        = handle_message wGenC3 wLoadsC3 wDumps 7 (some ("hi".toList)) [] :=
  handle_message_length_gate wGenC2 wGenC3 wLoadsNone wLoadsC3 wDumps wDumps
    7 (some ("hi".toList)) [] (by decide)

/-- C7: past the length gate, if the try-block fails — in particular when
the external classification call itself raises — handle_message catches it
and sends the generic error reply after the acknowledgement, leaving the
store untouched; handle_message is a total function, so no exception
propagates to the polling loop. -/
theorem handle_message_error_reply
    (gen : List Char → Except Unit (List Char)) (loads : List Char → Option Json)
    (dumps : Json → List Char) (uid : Nat) (msgText : Option (List Char)) (store : Store)
    (h : ¬ (pyStrip (msgText.getD [])).length < 5) :
    (∀ e, classify_and_reply gen loads dumps uid (msgText.getD []) store = .error e →
      handle_message gen loads dumps uid msgText store = ⟨[checkingMsg, errorReply], store⟩)
    ∧ (∀ e, gen (buildPrompt (msgText.getD [])) = .error e →
      handle_message gen loads dumps uid msgText store = ⟨[checkingMsg, errorReply], store⟩) := by
  constructor
  · intro e he
    simp [handle_message, h, he]
  · intro e he
    have hcr : classify_and_reply gen loads dumps uid (msgText.getD []) store = .error e := by
      simp only [classify_and_reply, call_gemini, he]
    simp [handle_message, h, hcr]

def wGenErr : List Char → Except Unit (List Char) := fun _ => .error ()

/-- Witness for C7: a failing upstream call on the message "hello" degrades
to the generic error reply. -/
theorem handle_message_error_reply_witness :
    handle_message wGenErr wLoadsNone wDumps 7 (some ("hello".toList)) []
      = ⟨[checkingMsg, errorReply], []⟩ :=
  (handle_message_error_reply wGenErr wLoadsNone wDumps 7 (some ("hello".toList)) []
    (by decide)).2 () rfl

/-- After a successful HIGH_RISK chain, classify_and_reply appends the hint
and overwrites the sender's store entry with the fresh draft. -/
theorem classify_and_reply_red_ok
    (gen : List Char → Except Unit (List Char)) (loads : List Char → Option Json)
    (dumps : Json → List Char) (uid : Nat) (text : List Char) (st : Store)
    (j : Json) (base resp draftResp : List Char)
    (hgen : gen (buildPrompt text) = .ok resp)
    (hloads : loads (extractBraced (pyStrip resp)) = some j)
    (hbuild : buildReply j = some (cRED, base))
    (hdraft : gen (complaintPrompt text (dumps j)) = .ok draftResp) :
    classify_and_reply gen loads dumps uid text st
      = .ok (base ++ hintLine, storePut st uid (pyStrip draftResp)) := by
  have hcg : call_gemini gen loads text = .ok j := by
    simp only [call_gemini, hgen, parseResponse, hloads]
  have hgc : generate_complaint_text gen dumps text j = .ok (pyStrip draftResp) := by
    simp only [generate_complaint_text, hdraft]
  simp only [classify_and_reply, hcg, hbuild, if_true, hgc]

/-- C4: once a HIGH_RISK classification with successful drafting completes,
the sender's stored complaint is the draft generated from that very
message — whatever the store held before — and the retrieval command then
returns exactly that fresh text behind the fixed header; the reply carries
the hint line. -/
theorem handle_message_high_risk_fresh
    (gen : List Char → Except Unit (List Char)) (loads : List Char → Option Json)
    (dumps : Json → List Char) (uid : Nat) (text : List Char) (store : Store)
    (j : Json) (base resp draftResp : List Char)
    (hlen : ¬ (pyStrip text).length < 5)
    (hgen : gen (buildPrompt text) = .ok resp)
    (hloads : loads (extractBraced (pyStrip resp)) = some j)
    (hbuild : buildReply j = some (cRED, base))
    (hdraft : gen (complaintPrompt text (dumps j)) = .ok draftResp) :
    storeGet (handle_message gen loads dumps uid (some text) store).store uid
        = some (pyStrip draftResp)
    ∧ complaint_cmd uid (handle_message gen loads dumps uid (some text) store).store
        = ([complaintHeader ++ pyStrip draftResp],
            (handle_message gen loads dumps uid (some text) store).store)
    ∧ (handle_message gen loads dumps uid (some text) store).sends
        = [checkingMsg, base ++ hintLine] := by
  have hcr := classify_and_reply_red_ok gen loads dumps uid text store j base resp
    draftResp hgen hloads hbuild hdraft
  have hh : handle_message gen loads dumps uid (some text) store
      = ⟨[checkingMsg, base ++ hintLine], storePut store uid (pyStrip draftResp)⟩ := by
    simp [handle_message, hlen, hcr]
  rw [hh]
  refine ⟨storeGet_storePut _ _ _, ?_, rfl⟩
  simp [complaint_cmd, storeGet_storePut]

def wText4 : List Char := "win a free prize now".toList
def wJ4 : Json := .obj [(sResult, .str sFAKE), (sConfidence, .num 80)]
def wBase4 : List Char := ((buildReply wJ4).getD ([], [])).2
def wDraft4 : List Char := "I wish to report a scam message.".toList
def wResp4 : List Char := "ignored prose".toList
def wLoadsC4 : List Char → Option Json := fun _ => some wJ4

/-- The classification prompt starts with a letter, the complaint prompt
with a newline: this stub model answers each accordingly. -/
def wGenC4 : List Char → Except Unit (List Char) := fun s =>
  match s with
  | '\n' :: _ => .ok wDraft4
  | _ => .ok wResp4

/-- Witness for C4 over a store holding a stale record for the same user. -/
theorem handle_message_high_risk_fresh_witness :
    storeGet (handle_message wGenC4 wLoadsC4 wDumps 7 (some wText4)
        [(7, "old complaint".toList)]).store 7 = some (pyStrip wDraft4)
    ∧ complaint_cmd 7 (handle_message wGenC4 wLoadsC4 wDumps 7 (some wText4)
        [(7, "old complaint".toList)]).store
        = ([complaintHeader ++ pyStrip wDraft4],
            (handle_message wGenC4 wLoadsC4 wDumps 7 (some wText4)
              [(7, "old complaint".toList)]).store)
    ∧ (handle_message wGenC4 wLoadsC4 wDumps 7 (some wText4)
        [(7, "old complaint".toList)]).sends
        = [checkingMsg, wBase4 ++ hintLine] :=
  handle_message_high_risk_fresh wGenC4 wLoadsC4 wDumps 7 wText4
    [(7, "old complaint".toList)] wJ4 wBase4 wResp4 wDraft4
    (by decide) rfl rfl rfl rfl

/-- C6: when the HIGH_RISK chain reaches complaint drafting and the drafting
call raises, handle_message still delivers the classification reply, with
the degraded-service notice appended where the hint would have gone, and the
store is left untouched; the failure never suppresses the reply. -/
theorem handle_message_draft_unavailable
    (gen : List Char → Except Unit (List Char)) (loads : List Char → Option Json)
    (dumps : Json → List Char) (uid : Nat) (text : List Char) (store : Store)
    (j : Json) (base resp : List Char) (e : Unit)
    (hlen : ¬ (pyStrip text).length < 5)
    (hgen : gen (buildPrompt text) = .ok resp)
    (hloads : loads (extractBraced (pyStrip resp)) = some j)
    (hbuild : buildReply j = some (cRED, base))
    (hdraft : gen (complaintPrompt text (dumps j)) = .error e) :
    handle_message gen loads dumps uid (some text) store
      = ⟨[checkingMsg, base ++ unavailLine], store⟩ := by
  have hcg : call_gemini gen loads text = .ok j := by
    simp only [call_gemini, hgen, parseResponse, hloads]
  have hgc : generate_complaint_text gen dumps text j = .error e := by
    simp only [generate_complaint_text, hdraft]
  have hcr : classify_and_reply gen loads dumps uid text store
      = .ok (base ++ unavailLine, store) := by
    simp only [classify_and_reply, hcg, hbuild, if_true, hgc]
  simp [handle_message, hlen, hcr]

/-- This stub model classifies but raises on the complaint prompt (which
starts with a newline). -/
def wGenC6 : List Char → Except Unit (List Char) := fun s =>
  match s with
  | '\n' :: _ => .error ()
  | _ => .ok wResp4

/-- Witness for C6: drafting failure appends the unavailable notice and
keeps the old store. -/
theorem handle_message_draft_unavailable_witness :
    handle_message wGenC6 wLoadsC4 wDumps 7 (some wText4) [(3, "x".toList)]
      = ⟨[checkingMsg, wBase4 ++ unavailLine], [(3, "x".toList)]⟩ :=
  handle_message_draft_unavailable wGenC6 wLoadsC4 wDumps 7 wText4
    [(3, "x".toList)] wJ4 wBase4 wResp4 () (by decide) rfl rfl rfl rfl

/-- C10 (implicit frame property): the session store is written only on the
successful-drafting path of a RED classification — the first conjunct says
any run either leaves the store exactly as it was or performed that
overwrite with the fresh draft. Specifically: the length gate, a failed
drafting call (whose earlier record stays retrievable), and a non-RED tier
all leave the store unchanged, and the retrieval command never writes. -/
theorem session_store_frame
    (gen : List Char → Except Unit (List Char)) (loads : List Char → Option Json)
    (dumps : Json → List Char) (uid : Nat) (msgText : Option (List Char)) (store : Store) :
    ((handle_message gen loads dumps uid msgText store).store = store
      ∨ ∃ j complaint base,
          call_gemini gen loads (msgText.getD []) = .ok j
          ∧ buildReply j = some (cRED, base)
          ∧ generate_complaint_text gen dumps (msgText.getD []) j = .ok complaint
          ∧ (handle_message gen loads dumps uid msgText store).store
              = storePut store uid complaint)
    ∧ ((pyStrip (msgText.getD [])).length < 5 →
        (handle_message gen loads dumps uid msgText store).store = store)
    ∧ (∀ j base e, call_gemini gen loads (msgText.getD []) = .ok j →
        buildReply j = some (cRED, base) →
        generate_complaint_text gen dumps (msgText.getD []) j = .error e →
        (handle_message gen loads dumps uid msgText store).store = store
        ∧ storeGet (handle_message gen loads dumps uid msgText store).store uid
            = storeGet store uid)
    ∧ (∀ j color base, call_gemini gen loads (msgText.getD []) = .ok j →
        buildReply j = some (color, base) → color ≠ cRED →
        (handle_message gen loads dumps uid msgText store).store = store)
    ∧ (complaint_cmd uid store).2 = store := by
  have hE : (complaint_cmd uid store).2 = store := by
    cases hsc : storeGet store uid <;> simp [complaint_cmd, hsc]
  have hAll : (handle_message gen loads dumps uid msgText store).store = store →
      ((handle_message gen loads dumps uid msgText store).store = store
        ∨ ∃ j complaint base,
            call_gemini gen loads (msgText.getD []) = .ok j
            ∧ buildReply j = some (cRED, base)
            ∧ generate_complaint_text gen dumps (msgText.getD []) j = .ok complaint
            ∧ (handle_message gen loads dumps uid msgText store).store
                = storePut store uid complaint)
      ∧ ((pyStrip (msgText.getD [])).length < 5 →
          (handle_message gen loads dumps uid msgText store).store = store)
      ∧ (∀ j base e, call_gemini gen loads (msgText.getD []) = .ok j →
          buildReply j = some (cRED, base) →
          generate_complaint_text gen dumps (msgText.getD []) j = .error e →
          (handle_message gen loads dumps uid msgText store).store = store
          ∧ storeGet (handle_message gen loads dumps uid msgText store).store uid
              = storeGet store uid)
      ∧ (∀ j color base, call_gemini gen loads (msgText.getD []) = .ok j →
          buildReply j = some (color, base) → color ≠ cRED →
          (handle_message gen loads dumps uid msgText store).store = store)
      ∧ (complaint_cmd uid store).2 = store := by
    intro hh
    exact ⟨Or.inl hh, fun _ => hh, fun _ _ _ _ _ _ => ⟨hh, by rw [hh]⟩,
      fun _ _ _ _ _ _ => hh, hE⟩
  by_cases hg : (pyStrip (msgText.getD [])).length < 5
  · exact hAll (by simp [handle_message, hg])
  · obtain ⟨e0, hcg⟩ | ⟨j, hcg⟩ :
        (∃ e, call_gemini gen loads (msgText.getD []) = .error e)
        ∨ (∃ j, call_gemini gen loads (msgText.getD []) = .ok j) := by
      cases call_gemini gen loads (msgText.getD []) with
      | error e => exact Or.inl ⟨e, rfl⟩
      | ok j => exact Or.inr ⟨j, rfl⟩
    · have hcr : classify_and_reply gen loads dumps uid (msgText.getD []) store
          = .error e0 := by
        simp only [classify_and_reply, hcg]
      exact hAll (by simp [handle_message, hg, hcr])
    · obtain hbr | ⟨color, reply, hbr⟩ :
          buildReply j = none ∨ ∃ color reply, buildReply j = some (color, reply) := by
        cases buildReply j with
        | none => exact Or.inl rfl
        | some cb => exact Or.inr ⟨cb.1, cb.2, rfl⟩
      · have hcr : classify_and_reply gen loads dumps uid (msgText.getD []) store
            = .error () := by
          simp only [classify_and_reply, hcg, hbr]
        exact hAll (by simp [handle_message, hg, hcr])
      · by_cases hcol : color = cRED
        · subst hcol
          obtain ⟨e2, hgc⟩ | ⟨comp, hgc⟩ :
              (∃ e, generate_complaint_text gen dumps (msgText.getD []) j = .error e)
              ∨ (∃ c, generate_complaint_text gen dumps (msgText.getD []) j = .ok c) := by
            cases generate_complaint_text gen dumps (msgText.getD []) j with
            | error e => exact Or.inl ⟨e, rfl⟩
            | ok c => exact Or.inr ⟨c, rfl⟩
          · have hcr : classify_and_reply gen loads dumps uid (msgText.getD []) store
                = .ok (reply ++ unavailLine, store) := by
              simp only [classify_and_reply, hcg, hbr, if_true, hgc]
            exact hAll (by simp [handle_message, hg, hcr])
          ·
            have hcr : classify_and_reply gen loads dumps uid (msgText.getD []) store
                = .ok (reply ++ hintLine, storePut store uid comp) := by
              simp only [classify_and_reply, hcg, hbr, if_true, hgc]
            have hh : (handle_message gen loads dumps uid msgText store).store
                = storePut store uid comp := by
              simp [handle_message, hg, hcr]
            refine ⟨Or.inr ⟨j, comp, reply, hcg, hbr, hgc, hh⟩,
              fun hlt => absurd hlt hg, ?_, ?_, hE⟩
            · intro j2 base2 e2 hcg2 hbr2 hgc2
              rw [hcg] at hcg2
              obtain rfl : j = j2 := Except.ok.inj hcg2
              rw [hgc] at hgc2
              simp at hgc2
            · intro j2 color2 base2 hcg2 hbr2 hcol2
              rw [hcg] at hcg2
              obtain rfl : j = j2 := Except.ok.inj hcg2
              rw [hbr] at hbr2
              simp only [Option.some.injEq, Prod.mk.injEq] at hbr2
              exact absurd hbr2.1.symm hcol2
        · have hcr : classify_and_reply gen loads dumps uid (msgText.getD []) store
              = .ok (reply, store) := by
            simp only [classify_and_reply, hcg, hbr, if_neg hcol]
          exact hAll (by simp [handle_message, hg, hcr])
